import Mathlib

/-!
Verification of the WealthCircle Treasury and Governance Engine.

This development gives a shallow embedding of the TypeScript services
(`ContributionService`, `PayoutService`, `ChamaService`) and of the SQL schema
of the repository, and proves or refutes the frozen specification claims
against it.

Modelling conventions:
* The transactional store is a record of row lists (`DB`); each supabase
  query (`select`/`insert`/`update`/`delete` with `.eq` filters) is embedded
  as the corresponding pure list operation.  `.single()` result rows become
  `List.find?` under the schema uniqueness constraints.
* Row ids are abstract natural numbers, freshly allocated from a `nextId`
  counter (the schema uses `uuid_generate_v4()`); the string-level UUID
  format checks of the services are embedded separately over `String`.
* Monetary amounts (`DECIMAL` columns and JS numbers) are embedded as `ℚ`,
  which models exactly the arithmetic the services perform on them.
* The two rational comparisons of the voting rule are embedded in the
  equivalent cross-multiplied integer form so that the embedding is
  executable by kernel reduction; the lemmas `majority_iff` and `quorum_iff`
  prove, in `ℚ`, that the embedded form coincides with the source
  expressions `approveVotes > totalVotes / 2` and
  `totalVotes / totalMembers >= 0.5`.
* `String.prototype.trim` is embedded as the structurally recursive `jsTrim`.
* Authentication is external (spec section 6): the verified caller identity
  becomes an explicit `userId` argument.  The in-process rate limiting maps
  are a pre-call guard (spec section 6) and are not part of the engine state.
* A store write whose failure the code silently swallows is given an explicit
  success oracle (`updateOk`, `memberInsertOk`, `deleteOk`, `kittyOk`):
  `true` embeds the successful store, `false` the failing one.  The one
  swallowed write left without an oracle is the status update of the
  `lib/payouts.ts` resolver, embedded as the successful store.
-/

/-- Member role, from the `user_role` enum of the SQL schema. -/
inductive Role where
  | member
  | treasurer
  | chairperson
  | secretary
deriving DecidableEq, Repr

/-- Payout request status, from the `request_status` enum of the SQL schema. -/
inductive RequestStatus where
  | pending
  | approved
  | rejected
  | paid
  | defaulted
deriving DecidableEq, Repr

/-- The value names of the `request_status` enum exactly as declared in the
SQL schema (`CREATE TYPE request_status AS ENUM (...)`). -/
def requestStatusValues : List String :=
  ["pending", "approved", "rejected", "paid", "defaulted"]

/-- Contribution status, from the `contributions.status` column type. -/
inductive ContribStatus where
  | pending
  | completed
  | failed
deriving DecidableEq, Repr

/-- Payment method of a contribution. -/
inductive PayMethod where
  | mpesa
  | cash
  | bank
deriving DecidableEq, Repr

/-- A vote choice, from the `vote_type` enum of the SQL schema. -/
inductive VoteChoice where
  | approve
  | reject
deriving DecidableEq, Repr

/-- Payout request kind (`request_type` column: `payout` or `loan`). -/
inductive ReqType where
  | payout
  | loan
deriving DecidableEq, Repr

/-- Contribution cycle (the service layer only offers weekly and monthly). -/
inductive ContribCycle where
  | weekly
  | monthly
deriving DecidableEq, Repr

/-- A row of the `chamas` table (columns not read by any embedded service,
such as `description` and `invite_code`, are omitted). -/
structure ChamaRow where
  id : Nat
  name : String
  contribution_amount : ℚ
  total_kitty : ℚ
  is_active : Bool
deriving DecidableEq, Repr

/-- A row of the `chama_members` table. -/
structure MemberRow where
  id : Nat
  chama_id : Nat
  user_id : Nat
  role : Role
  is_active : Bool
deriving DecidableEq, Repr

/-- A row of the `contributions` table. -/
structure ContributionRow where
  chama_id : Nat
  member_id : Nat
  amount : ℚ
  transaction_code : Option String
  payment_method : PayMethod
  status : ContribStatus
deriving DecidableEq, Repr

/-- A row of the `payout_requests` table. -/
structure PayoutRequestRow where
  id : Nat
  chama_id : Nat
  member_id : Nat
  amount : ℚ
  request_type : ReqType
  interest_rate : Option ℚ
  repayment_period : Option Nat
  status : RequestStatus
deriving DecidableEq, Repr

/-- A row of the `payout_votes` table. -/
structure VoteRow where
  payout_request_id : Nat
  member_id : Nat
  vote : VoteChoice
deriving DecidableEq, Repr

/-- The transactional store: one list per table, plus the fresh-id counter. -/
structure DB where
  nextId : Nat
  chamas : List ChamaRow
  chama_members : List MemberRow
  contributions : List ContributionRow
  payout_requests : List PayoutRequestRow
  payout_votes : List VoteRow
deriving DecidableEq, Repr

/-- The empty store. -/
def initDB : DB :=
  { nextId := 0, chamas := [], chama_members := [], contributions := [],
    payout_requests := [], payout_votes := [] }

/-- The `{ success, error }` result shape every service method returns. -/
structure SvcResult where
  success : Bool
  error : Option String
deriving DecidableEq, Repr

/-- Successful service result. -/
def svcOk : SvcResult := { success := true, error := none }

/-- Failed service result carrying the user-visible message. -/
def svcErr (msg : String) : SvcResult := { success := false, error := some msg }

/-- `String.prototype.trim`: strip leading and trailing whitespace.  Embedded
structurally (rather than through `String.trim`) so that it evaluates by
kernel reduction. -/
def jsTrim (s : String) : String :=
  String.mk
    (((s.data.dropWhile Char.isWhitespace).reverse.dropWhile
        Char.isWhitespace).reverse)

/-! ## Query helpers (supabase `.eq` filters over the embedded tables) -/

/-- `payout_votes` rows of one request:
`from('payout_votes').select('*').eq('payout_request_id', requestId)`. -/
def votesFor (db : DB) (rid : Nat) : List VoteRow :=
  db.payout_votes.filter (fun w => w.payout_request_id == rid)

/-- `chama_members` rows of one chama, exactly as queried by
`checkVoteStatus`: `select('id').eq('chama_id', ...)` — note the absence of
any `is_active` filter. -/
def membersOf (db : DB) (cid : Nat) : List MemberRow :=
  db.chama_members.filter (fun m => m.chama_id == cid)

/-- The active members of a chama (the rows with `is_active = true`); this is
what the specification means by the active membership. -/
def activeMembersOf (db : DB) (cid : Nat) : List MemberRow :=
  db.chama_members.filter (fun m => m.chama_id == cid && m.is_active)

/-- `from('payout_requests').select(...).eq('id', requestId).single()`. -/
def findRequest (db : DB) (rid : Nat) : Option PayoutRequestRow :=
  db.payout_requests.find? (fun r => r.id == rid)

/-- Membership lookup of `verifyChamaMembership`:
`select('id, role').eq('chama_id', chamaId).eq('user_id', userId).single()`.
Note that it does not filter on `is_active`. -/
def findMembership (db : DB) (cid uid : Nat) : Option MemberRow :=
  db.chama_members.find? (fun m => m.chama_id == cid && m.user_id == uid)

/-- `from('payout_requests').update({ status }).eq('id', requestId)` —
the update carries no `status = 'pending'` guard in the source. -/
def setRequestStatus (db : DB) (rid : Nat) (st : RequestStatus) : DB :=
  { db with payout_requests := db.payout_requests.map (fun r =>
      if r.id == rid then { r with status := st } else r) }

/-- The status of a request row, when present. -/
def statusOf (db : DB) (rid : Nat) : Option RequestStatus :=
  (findRequest db rid).map (fun r => r.status)

/-! ## The voting rule conditions -/

/-- Number of approve votes among a vote list. -/
def approveCount (votes : List VoteRow) : Nat :=
  (votes.filter (fun w => w.vote == VoteChoice.approve)).length

/-- The embedded form `2 * approveVotes > totalVotes` coincides with the
source expression `approveVotes > totalVotes / 2` read over exact (JS
number) division. -/
theorem majority_iff (a t : ℕ) : 2 * a > t ↔ ((a : ℚ) > (t : ℚ) / 2) := by
  simp only [gt_iff_lt]
  rw [div_lt_iff₀ (by norm_num : (0 : ℚ) < 2)]
  norm_cast
  omega

/-- The embedded form `2 * totalVotes ≥ totalMembers` coincides with the
source expression `totalVotes / totalMembers >= 0.5` read over exact (JS
number) division, for the positive `totalMembers` the code guarantees via
`members?.length || 1`. -/
theorem quorum_iff (t m : ℕ) (hm : 0 < m) :
    2 * t ≥ m ↔ ((t : ℚ) / (m : ℚ) ≥ 1 / 2) := by
  simp only [ge_iff_le]
  rw [div_le_div_iff₀ (by norm_num : (0 : ℚ) < 2) (by exact_mod_cast hm),
    one_mul]
  norm_cast
  omega

/-! ## `checkVoteStatus` and `voteOnPayout` — the enhanced `PayoutService` -/

/-- `checkVoteStatus(requestId)` of the enhanced `PayoutService`: recounts the
votes, reads the request row for its `chama_id`, counts ALL `chama_members`
rows of that chama (`totalMembers = members?.length || 1`, i.e. the length
floored at `1`, embedded as `max length 1`), and then, in
order: approves on `approveVotes > totalVotes / 2` with participation
`totalVotes / totalMembers >= 0.5` (both embedded in the integer form proved
equivalent by `majority_iff` and `quorum_iff`), else rejects once
`totalVotes >= totalMembers`, else leaves the row untouched.
`updateOk` is the success oracle of the status `update` (the surrounding
`try`/`catch` swallows every store failure, so a failed update simply leaves
the store unchanged and the function still returns normally). -/
def checkVoteStatus (updateOk : Bool) (db : DB) (rid : Nat) : DB :=
  let votes := votesFor db rid
  let totalVotes := votes.length
  let approveVotes := approveCount votes
  match findRequest db rid with
  | none => db
  | some req =>
      let totalMembers := max (membersOf db req.chama_id).length 1
      if 2 * approveVotes > totalVotes ∧ 2 * totalVotes ≥ totalMembers then
        if updateOk then setRequestStatus db rid RequestStatus.approved else db
      else if totalVotes ≥ totalMembers then
        if updateOk then setRequestStatus db rid RequestStatus.rejected else db
      else db

/-- `voteOnPayout(requestId, vote)` of the enhanced `PayoutService`: looks up
the request, refuses when its status is not `pending`, verifies membership of
the caller in the chama of the request, refuses a second vote by the same
member, then inserts the vote row and runs `checkVoteStatus`.  Returns the
service result together with the new store. -/
def voteOnPayout (updateOk : Bool) (db : DB) (userId rid : Nat)
    (v : VoteChoice) : SvcResult × DB :=
  match findRequest db rid with
  | none => (svcErr "Payout request not found", db)
  | some req =>
      if req.status ≠ RequestStatus.pending then
        (svcErr "Voting is closed for this request", db)
      else
        match findMembership db req.chama_id userId with
        | none => (svcErr "Not authorized to vote", db)
        | some m =>
            if db.payout_votes.any
                (fun w => w.payout_request_id == rid && w.member_id == m.id) then
              (svcErr "Already voted on this request", db)
            else
              let db1 : DB :=
                { db with payout_votes :=
                    db.payout_votes ++
                      [{ payout_request_id := rid, member_id := m.id, vote := v }] }
              (svcOk, checkVoteStatus updateOk db1 rid)

/-! ## `checkVoteStatus` and `voteOnPayout` — the simple `lib/payouts.ts` variant -/

/-- `checkVoteStatus` of `src/lib/payouts.ts`: plain majority rule only — it
approves on `approveVotes > totalVotes / 2` (embedded via `majority_iff`) and
otherwise does nothing (no quorum, no rejection path). -/
def checkVoteStatusSimple (db : DB) (rid : Nat) : DB :=
  let votes := votesFor db rid
  let totalVotes := votes.length
  let approveVotes := approveCount votes
  if 2 * approveVotes > totalVotes then
    setRequestStatus db rid RequestStatus.approved
  else db

/-- `voteOnPayout` of `src/lib/payouts.ts`: like the enhanced variant but it
selects only `chama_id` from the request row and performs NO status check —
votes are accepted for requests in any status. -/
def voteOnPayoutSimple (db : DB) (userId rid : Nat) (v : VoteChoice) :
    SvcResult × DB :=
  match findRequest db rid with
  | none => (svcErr "Payout request not found", db)
  | some req =>
      match findMembership db req.chama_id userId with
      | none => (svcErr "Not authorized to vote", db)
      | some m =>
          if db.payout_votes.any
              (fun w => w.payout_request_id == rid && w.member_id == m.id) then
            (svcErr "Already voted on this request", db)
          else
            let db1 : DB :=
              { db with payout_votes :=
                  db.payout_votes ++
                    [{ payout_request_id := rid, member_id := m.id, vote := v }] }
            (svcOk, checkVoteStatusSimple db1 rid)

/-! ## Validation results and string-level validators -/

/-- The `{ valid, error }` shape the validators return. -/
structure Validation where
  valid : Bool
  error : Option String
deriving DecidableEq, Repr

/-- A passing validation. -/
def vOk : Validation := { valid := true, error := none }

/-- A failing validation with its message. -/
def vErr (msg : String) : Validation := { valid := false, error := some msg }

/-- Hexadecimal digit, case insensitive (the UUID regex carries the `i`
flag). -/
def isHexDigit (c : Char) : Bool :=
  c.isDigit || (97 ≤ c.toNat && c.toNat ≤ 102) || (65 ≤ c.toNat && c.toNat ≤ 70)

/-- First character of the fourth UUID group: `[89ab]` with the `i` flag. -/
def isUuidVariantChar (c : Char) : Bool :=
  c == Char.ofNat 56 || c == Char.ofNat 57 || c == Char.ofNat 97 ||
    c == Char.ofNat 98 || c == Char.ofNat 65 || c == Char.ofNat 66

/-- First character of the third UUID group: `[1-5]`. -/
def isUuidVersionChar (c : Char) : Bool :=
  49 ≤ c.toNat && c.toNat ≤ 53

/-- `isValidUUID(id)` of the enhanced `PayoutService`: `false` for the falsy
empty string, else the regex
`^[0-9a-f]{8}-[0-9a-f]{4}-[1-5][0-9a-f]{3}-[89ab][0-9a-f]{3}-[0-9a-f]{12}$/i`,
embedded by splitting on the dashes. -/
def isValidUUID (s : String) : Bool :=
  if s.data.isEmpty then false
  else
    match s.data.splitOn (Char.ofNat 45) with
    | [g1, g2, g3, g4, g5] =>
        (g1.length == 8 && g1.all isHexDigit) &&
        (g2.length == 4 && g2.all isHexDigit) &&
        (g3.length == 4 && g3.all isHexDigit &&
          match g3 with
          | c :: _ => isUuidVersionChar c
          | [] => false) &&
        (g4.length == 4 && g4.all isHexDigit &&
          match g4 with
          | c :: _ => isUuidVariantChar c
          | [] => false) &&
        (g5.length == 12 && g5.all isHexDigit)
    | _ => false

/-- `SecurityUtils.validateAmount` of the enhanced `PayoutService`
(`MIN_AMOUNT = 1`, `MAX_AMOUNT = 1000000`); the `typeof`/`isNaN` guards are
vacuous for the `ℚ` embedding. -/
def validateAmount (amount : ℚ) : Validation :=
  if amount < 1 then vErr "Amount must be at least 1 KES"
  else if amount > 1000000 then vErr "Amount cannot exceed 1000000 KES"
  else vOk

/-- The non-id checks of `validatePayoutRequest`: amount bounds, purpose
length bounds (`MIN_PURPOSE_LENGTH = 5`, `MAX_PURPOSE_LENGTH = 500`), and the
loan-term checks.  The `request_type` membership check always passes for the
embedded `ReqType`.  NOTE the loan checks embed the source faithfully:
`!requestData.interest_rate` is `true` for the JS number `0`, so an interest
rate of zero is rejected together with `undefined`; likewise a repayment
period of `0` (which the range check would reject anyway). -/
def validatePayoutCore (amount : ℚ) (rt : ReqType) (purpose : String)
    (ir : Option ℚ) (rp : Option Nat) : Validation :=
  let av := validateAmount amount
  if !av.valid then av
  else if (jsTrim purpose).length < 5 then
    vErr "Purpose must be at least 5 characters"
  else if purpose.length > 500 then
    vErr "Purpose too long (max 500 characters)"
  else if rt == ReqType.loan then
    match ir with
    | none => vErr "Valid interest rate required (0-100%)"
    | some irv =>
        if irv == 0 || irv < 0 || irv > 100 then
          vErr "Valid interest rate required (0-100%)"
        else
          match rp with
          | none => vErr "Valid repayment period required (1-36 months)"
          | some rpv =>
              if rpv == 0 || rpv < 1 || rpv > 36 then
                vErr "Valid repayment period required (1-36 months)"
              else vOk
  else vOk

/-- The payout request payload exactly as `validatePayoutRequest` receives
it, with the string `chama_id` the UUID check inspects. -/
structure PayoutRequestData where
  chama_id : String
  amount : ℚ
  request_type : ReqType
  purpose : String
  interest_rate : Option ℚ
  repayment_period : Option Nat
deriving DecidableEq, Repr

/-- `validatePayoutRequest(requestData)` of the enhanced `PayoutService`:
UUID check on `chama_id` (the falsy empty string also fails it), then the
amount, purpose and loan-term checks of `validatePayoutCore`. -/
def validatePayoutRequest (d : PayoutRequestData) : Validation :=
  if !(isValidUUID d.chama_id) then vErr "Invalid chama ID"
  else
    validatePayoutCore d.amount d.request_type d.purpose d.interest_rate
      d.repayment_period

/-! ## `ContributionService` — `recordContribution` and `updateChamaTotal` -/

/-- Sum of the amounts of the completed contributions of one chama within a
contributions table — the exact aggregation of `updateChamaTotal`:
`select('amount').eq('chama_id', chamaId).eq('status', 'completed')` then
`reduce((sum, c) => sum + c.amount, 0)`. -/
def completedSumL (cs : List ContributionRow) (cid : Nat) : ℚ :=
  ((cs.filter (fun c =>
      c.chama_id == cid && c.status == ContribStatus.completed)).map
    (fun c => c.amount)).sum

/-- `completedSumL` over the store. -/
def completedSum (db : DB) (cid : Nat) : ℚ :=
  completedSumL db.contributions cid

/-- Sum of the amounts of the disbursed payout requests of one chama.  The
`request_status` enum of the schema names the disbursed terminal state
`paid`. -/
def disbursedSumL (rs : List PayoutRequestRow) (cid : Nat) : ℚ :=
  ((rs.filter (fun r =>
      r.chama_id == cid && r.status == RequestStatus.paid)).map
    (fun r => r.amount)).sum

/-- `disbursedSumL` over the store. -/
def disbursedSum (db : DB) (cid : Nat) : ℚ :=
  disbursedSumL db.payout_requests cid

/-- `updateChamaTotal(chamaId)` of `ContributionService`: recompute the sum
of the completed contribution amounts of the chama and write it into
`chamas.total_kitty`.  Note it never subtracts anything — and the source
DISCARDS the result of the `update` (`lib/contributions.ts` never reads it;
the `part_004` variant additionally swallows every error in its catch), so
the write carries the success oracle `kittyOk`: on a failed write the store
keeps the stale cached balance and the caller never learns of it. -/
def updateChamaTotal (kittyOk : Bool) (db : DB) (cid : Nat) : DB :=
  match kittyOk with
  | true =>
      { db with chamas := db.chamas.map (fun ch =>
          if ch.id == cid then { ch with total_kitty := completedSum db cid }
          else ch) }
  | false => db

/-- Input payload of `recordContribution`. -/
structure ContributionInput where
  chama_id : Nat
  member_id : Nat
  amount : ℚ
  transaction_code : Option String
  payment_method : PayMethod
deriving DecidableEq, Repr

/-- `recordContribution(contributionData)` of `ContributionService`
(`src/lib/contributions.ts`): inserts the row with `status: 'completed'` and
then runs `updateChamaTotal`.  The service performs NO lookup of any
existing row with the same `transaction_code`.  The two leading guards embed
the foreign key constraints of the `contributions` table (schema:
`chama_id REFERENCES chamas`, `member_id REFERENCES chama_members`); a
violating insert throws in the source and the catch returns the store error
message.  (The `part_004` variant adds caller-membership and positive-amount
guards in front of the same insert and the same `updateChamaTotal`.)
Because the kitty update's failure is swallowed (oracle `kittyOk`), the call
reports success even when the cached balance was left stale. -/
def recordContribution (kittyOk : Bool) (db : DB) (d : ContributionInput) :
    SvcResult × DB :=
  if !(db.chamas.any (fun c => c.id == d.chama_id)) then
    (svcErr "foreign key violation on contributions.chama_id", db)
  else if !(db.chama_members.any (fun m => m.id == d.member_id)) then
    (svcErr "foreign key violation on contributions.member_id", db)
  else
    let db1 : DB :=
      { db with contributions := db.contributions ++
          [{ chama_id := d.chama_id, member_id := d.member_id,
             amount := d.amount, transaction_code := d.transaction_code,
             payment_method := d.payment_method,
             status := ContribStatus.completed }] }
    (svcOk, updateChamaTotal kittyOk db1 d.chama_id)

/-- Number of ledger entries carrying one external payment reference. -/
def contribsWithCode (db : DB) (code : String) : Nat :=
  (db.contributions.filter (fun c => c.transaction_code == some code)).length

/-! ## `ChamaService` — `createChama` and `joinChama` -/

/-- Input payload of `createChama`. -/
structure ChamaCreateData where
  name : String
  description : Option String
  savings_goal : String
  contribution_cycle : ContribCycle
  contribution_amount : ℚ
deriving DecidableEq, Repr

/-- `validateChamaData` of `ChamaService` (`MAX_NAME_LENGTH = 50`,
`MAX_DESCRIPTION_LENGTH = 200`, contribution amount within
`[100, 100000]`); the cycle membership check always passes for the embedded
`ContribCycle`. -/
def validateChamaData (d : ChamaCreateData) : Validation :=
  if (jsTrim d.name).length < 2 then
    vErr "Chama name must be at least 2 characters"
  else if d.name.length > 50 then
    vErr "Chama name too long (max 50 characters)"
  else if d.description.any (fun ds => ds.length > 200) then
    vErr "Description too long (max 200 characters)"
  else if (jsTrim d.savings_goal).length < 2 then
    vErr "Valid savings goal required"
  else if d.contribution_amount < 100 || d.contribution_amount > 100000 then
    vErr "Contribution amount must be between 100 and 100000"
  else vOk

/-- The characters removed by the `text` branch of `sanitizeInput`
(the regex character class of the source, spelled via character codes). -/
def sanitizeRemovedChars : List Char :=
  [Char.ofNat 60, Char.ofNat 62, Char.ofNat 34, Char.ofNat 39, Char.ofNat 96,
   Char.ofNat 59, Char.ofNat 92, Char.ofNat 47, Char.ofNat 38, Char.ofNat 124,
   Char.ofNat 36, Char.ofNat 35, Char.ofNat 123, Char.ofNat 91, Char.ofNat 93,
   Char.ofNat 125, Char.ofNat 61]

/-- `sanitizeInput(input, 'text')` of `ChamaService`: trim, strip the unsafe
characters, cut to `MAX_DESCRIPTION_LENGTH = 200`. -/
def sanitizeText (s : String) : String :=
  String.mk (((jsTrim s).data.filter
    (fun c => !(sanitizeRemovedChars.contains c))).take 200)

/-- `createChama(chamaData)` of `ChamaService`: validate, sanitize, insert
the chama row (`total_kitty` takes the schema default `0`, `is_active` is set
`true`), then `addMemberWithVerification(data.id, user.id, 'chairperson')`
(the member row takes the schema default `is_active = true`); when the member
insert fails — its success oracle is `memberInsertOk` — the compensating
`delete` removes the fresh chama row and the call reports failure.  The
source discards the result of that delete (`lib/chama.ts` line 238 never
reads it), so the delete carries its own success oracle `deleteOk`: on a
failed delete the orphan chama row survives, with no membership row. -/
def createChama (memberInsertOk deleteOk : Bool) (db : DB) (userId : Nat)
    (d : ChamaCreateData) : SvcResult × DB :=
  let validation := validateChamaData d
  if !validation.valid then
    ({ success := false, error := validation.error }, db)
  else
    let cid := db.nextId
    let row : ChamaRow :=
      { id := cid, name := sanitizeText d.name,
        contribution_amount := d.contribution_amount, total_kitty := 0,
        is_active := true }
    let db1 : DB :=
      { db with nextId := db.nextId + 2, chamas := db.chamas ++ [row] }
    if memberInsertOk then
      let db2 : DB :=
        { db1 with chama_members := db1.chama_members ++
            [{ id := cid + 1, chama_id := cid, user_id := userId,
               role := Role.chairperson, is_active := true }] }
      (svcOk, db2)
    else
      (svcErr "Failed to setup chama administration",
       if deleteOk then
         { db1 with chamas := db1.chamas.filter (fun c => !(c.id == cid)) }
       else db1)

/-- `joinChama(inviteCode)` of `ChamaService`, with the invite-code lookup
abstracted to the active chama id it resolves to: refuse when already a
member, else insert an ordinary member row. -/
def joinChama (db : DB) (userId cid : Nat) : SvcResult × DB :=
  match db.chamas.find? (fun c => c.id == cid && c.is_active) with
  | none => (svcErr "Invalid or expired invite code", db)
  | some chama =>
      if db.chama_members.any
          (fun m => m.chama_id == chama.id && m.user_id == userId) then
        (svcErr "You are already a member of this chama", db)
      else
        let db1 : DB :=
          { db with
            nextId := db.nextId + 1
            chama_members := db.chama_members ++
              [{ id := db.nextId, chama_id := chama.id, user_id := userId,
                 role := Role.member, is_active := true }] }
        (svcOk, db1)

/-! ## `requestPayout` — the enhanced `PayoutService` -/

/-- Input payload of `requestPayout` at the store level (ids resolved to the
abstract `Nat` ids; the string-level id format check is `isValidUUID`). -/
structure PayoutInput where
  chama_id : Nat
  amount : ℚ
  request_type : ReqType
  purpose : String
  interest_rate : Option ℚ
  repayment_period : Option Nat
deriving DecidableEq, Repr

/-- `requestPayout(requestData)` of the enhanced `PayoutService`: validate
the payload (`validatePayoutCore`; the id format check of
`validatePayoutRequest` is guaranteed by the abstract ids), verify
membership, check the chama funds (`total_kitty < amount` refuses) and the
`contribution_amount * 10` cap, then insert the request in `pending` status.
The stored `purpose` text is not kept on the embedded row (no claim reads
it). -/
def requestPayout (db : DB) (userId : Nat) (d : PayoutInput) :
    SvcResult × DB :=
  let validation := validatePayoutCore d.amount d.request_type d.purpose
    d.interest_rate d.repayment_period
  if !validation.valid then
    ({ success := false, error := validation.error }, db)
  else
    match findMembership db d.chama_id userId with
    | none => (svcErr "Not a member of this chama", db)
    | some m =>
        match db.chamas.find? (fun c => c.id == d.chama_id) with
        | none => (svcErr "Chama not found", db)
        | some chama =>
            if chama.total_kitty < d.amount then
              (svcErr "Insufficient chama funds", db)
            else if d.amount > chama.contribution_amount * 10 then
              (svcErr "Payout amount exceeds maximum allowed", db)
            else
              let db1 : DB :=
                { db with
                  nextId := db.nextId + 1
                  payout_requests := db.payout_requests ++
                    [{ id := db.nextId, chama_id := d.chama_id,
                       member_id := m.id, amount := d.amount,
                       request_type := d.request_type,
                       interest_rate := d.interest_rate,
                       repayment_period := d.repayment_period,
                       status := RequestStatus.pending }] }
              (svcOk, db1)

/-! ## The engine operations -/

/-- One engine operation: every state-changing service call of the
repository, BOTH `PayoutService` variants included.  Store-failure oracles
(`memberInsertOk`, `deleteOk`, `kittyOk`, `updateOk`) range over both
values, so the reachable states cover failing stores too; the status update
of the `lib/payouts.ts` resolver, whose failure the source also swallows, is
embedded as the successful write. -/
inductive Op where
  | createChama (memberInsertOk deleteOk : Bool) (userId : Nat)
      (d : ChamaCreateData)
  | joinChama (userId cid : Nat)
  | recordContribution (kittyOk : Bool) (d : ContributionInput)
  | requestPayout (userId : Nat) (d : PayoutInput)
  | voteOnPayout (updateOk : Bool) (userId rid : Nat) (v : VoteChoice)
  | voteOnPayoutSimple (userId rid : Nat) (v : VoteChoice)

/-- Apply one engine operation to the store (discarding the service
result). -/
def applyOp (db : DB) : Op → DB
  | Op.createChama ok del uid d => (createChama ok del db uid d).2
  | Op.joinChama uid cid => (joinChama db uid cid).2
  | Op.recordContribution kok d => (recordContribution kok db d).2
  | Op.requestPayout uid d => (requestPayout db uid d).2
  | Op.voteOnPayout ok uid rid v => (voteOnPayout ok db uid rid v).2
  | Op.voteOnPayoutSimple uid rid v => (voteOnPayoutSimple db uid rid v).2

/-- Whether the swallowed cached-balance write of an operation succeeds
(`true` for every operation that performs no such write). -/
def opKittyOk : Op → Bool
  | Op.recordContribution kok _ => kok
  | _ => true

/-- The store after a sequence of engine operations from the empty store. -/
def applyOps (ops : List Op) : DB :=
  ops.foldl applyOp initDB


/-! ## The fund-balance invariant (claim C1) -/

/-- Inductive engine invariant: chama ids and contribution references stay
below the fresh-id counter, no request ever reaches the disbursed (`paid`)
status — the repository contains no disbursement write — and every cached
`total_kitty` equals the completed-contribution sum of its chama. -/
def EngineInv (db : DB) : Prop :=
  (∀ c ∈ db.chamas, c.id < db.nextId) ∧
  (∀ x ∈ db.contributions, x.chama_id < db.nextId) ∧
  (∀ r ∈ db.payout_requests, r.status ≠ RequestStatus.paid) ∧
  (∀ c ∈ db.chamas, c.total_kitty = completedSum db c.id)

theorem completedSumL_append (cs₁ cs₂ : List ContributionRow) (cid : Nat) :
    completedSumL (cs₁ ++ cs₂) cid =
      completedSumL cs₁ cid + completedSumL cs₂ cid := by
  simp [completedSumL, List.filter_append, List.sum_append]

theorem completedSumL_eq_zero (cs : List ContributionRow) (cid : Nat)
    (h : ∀ x ∈ cs, x.chama_id ≠ cid) : completedSumL cs cid = 0 := by
  have : cs.filter (fun c =>
      c.chama_id == cid && c.status == ContribStatus.completed) = [] := by
    apply List.filter_eq_nil_iff.2
    intro x hx
    simp [h x hx]
  simp [completedSumL, this]

theorem disbursedSumL_eq_zero (rs : List PayoutRequestRow) (cid : Nat)
    (h : ∀ r ∈ rs, r.status ≠ RequestStatus.paid) : disbursedSumL rs cid = 0 := by
  have : rs.filter (fun r =>
      r.chama_id == cid && r.status == RequestStatus.paid) = [] := by
    apply List.filter_eq_nil_iff.2
    intro r hr
    simp [h r hr]
  simp [disbursedSumL, this]

theorem status_setRequestStatus (db : DB) (rid : Nat) (st : RequestStatus) :
    ∀ r' ∈ (setRequestStatus db rid st).payout_requests,
      r'.status = st ∨ r' ∈ db.payout_requests := by
  intro r' hr'
  simp only [setRequestStatus, List.mem_map] at hr'
  obtain ⟨r, hr, heq⟩ := hr'
  by_cases h : (r.id == rid) = true
  · rw [if_pos h] at heq
    left
    rw [← heq]
  · rw [if_neg h] at heq
    right
    rw [← heq]
    exact hr

theorem checkVoteStatus_chamas (ok : Bool) (db : DB) (rid : Nat) :
    (checkVoteStatus ok db rid).chamas = db.chamas := by
  simp only [checkVoteStatus]
  repeat' split
  all_goals rfl

theorem checkVoteStatus_contributions (ok : Bool) (db : DB) (rid : Nat) :
    (checkVoteStatus ok db rid).contributions = db.contributions := by
  simp only [checkVoteStatus]
  repeat' split
  all_goals rfl

theorem checkVoteStatus_nextId (ok : Bool) (db : DB) (rid : Nat) :
    (checkVoteStatus ok db rid).nextId = db.nextId := by
  simp only [checkVoteStatus]
  repeat' split
  all_goals rfl

theorem checkVoteStatus_members (ok : Bool) (db : DB) (rid : Nat) :
    (checkVoteStatus ok db rid).chama_members = db.chama_members := by
  simp only [checkVoteStatus]
  repeat' split
  all_goals rfl

theorem checkVoteStatus_status (ok : Bool) (db : DB) (rid : Nat) :
    ∀ r' ∈ (checkVoteStatus ok db rid).payout_requests,
      r'.status = RequestStatus.approved ∨ r'.status = RequestStatus.rejected ∨
        r' ∈ db.payout_requests := by
  intro r' hr'
  revert hr'
  simp only [checkVoteStatus]
  repeat' split
  all_goals intro hr'
  all_goals first
    | exact Or.inr (Or.inr hr')
    | exact (status_setRequestStatus _ _ _ _ hr').elim Or.inl
        (fun h => Or.inr (Or.inr h))
    | exact (status_setRequestStatus _ _ _ _ hr').elim
        (fun h => Or.inr (Or.inl h)) (fun h => Or.inr (Or.inr h))

theorem id_of_kitty_update (c : ChamaRow) (p : Bool) (q : ℚ) :
    (if p then { c with total_kitty := q } else c).id = c.id := by
  split <;> rfl

theorem engineInv_initDB : EngineInv initDB := by
  refine ⟨?_, ?_, ?_, ?_⟩ <;> intro x hx <;> simp [initDB] at hx

theorem engineInv_createChama (ok del : Bool) (uid : Nat)
    (d : ChamaCreateData) (db : DB) (h : EngineInv db) :
    EngineInv (createChama ok del db uid d).2 := by
  obtain ⟨h1, h2, h3, h4⟩ := h
  simp only [createChama]
  split
  · exact ⟨h1, h2, h3, h4⟩
  · split
    · dsimp only
      refine ⟨?_, ?_, h3, ?_⟩
      · intro c hc
        rcases List.mem_append.1 hc with hc | hc
        · exact Nat.lt_trans (h1 c hc)
            (show db.nextId < db.nextId + 2 by omega)
        · rcases List.mem_singleton.1 hc with rfl
          exact show db.nextId < db.nextId + 2 by omega
      · intro x hx
        exact Nat.lt_trans (h2 x hx)
          (show db.nextId < db.nextId + 2 by omega)
      · intro c hc
        rcases List.mem_append.1 hc with hc | hc
        · exact h4 c hc
        · rcases List.mem_singleton.1 hc with rfl
          simp only [completedSum]
          exact (completedSumL_eq_zero _ _ (fun x hx =>
            Nat.ne_of_lt (h2 x hx))).symm
    · dsimp only
      split
      · refine ⟨?_, ?_, h3, ?_⟩
        · intro c hc
          have hc' := List.mem_of_mem_filter hc
          rcases List.mem_append.1 hc' with hc' | hc'
          · exact Nat.lt_trans (h1 c hc')
              (show db.nextId < db.nextId + 2 by omega)
          · rcases List.mem_singleton.1 hc' with rfl
            exact show db.nextId < db.nextId + 2 by omega
        · intro x hx
          exact Nat.lt_trans (h2 x hx)
            (show db.nextId < db.nextId + 2 by omega)
        · intro c hc
          have hc' := List.mem_of_mem_filter hc
          rcases List.mem_append.1 hc' with hc' | hc'
          · exact h4 c hc'
          · rcases List.mem_singleton.1 hc' with rfl
            simp only [completedSum]
            exact (completedSumL_eq_zero _ _ (fun x hx =>
              Nat.ne_of_lt (h2 x hx))).symm
      · refine ⟨?_, ?_, h3, ?_⟩
        · intro c hc
          rcases List.mem_append.1 hc with hc | hc
          · exact Nat.lt_trans (h1 c hc)
              (show db.nextId < db.nextId + 2 by omega)
          · rcases List.mem_singleton.1 hc with rfl
            exact show db.nextId < db.nextId + 2 by omega
        · intro x hx
          exact Nat.lt_trans (h2 x hx)
            (show db.nextId < db.nextId + 2 by omega)
        · intro c hc
          rcases List.mem_append.1 hc with hc | hc
          · exact h4 c hc
          · rcases List.mem_singleton.1 hc with rfl
            simp only [completedSum]
            exact (completedSumL_eq_zero _ _ (fun x hx =>
              Nat.ne_of_lt (h2 x hx))).symm

theorem engineInv_joinChama (uid cid : Nat) (db : DB) (h : EngineInv db) :
    EngineInv (joinChama db uid cid).2 := by
  obtain ⟨h1, h2, h3, h4⟩ := h
  simp only [joinChama]
  split
  · exact ⟨h1, h2, h3, h4⟩
  · split
    · exact ⟨h1, h2, h3, h4⟩
    · refine ⟨?_, ?_, h3, h4⟩
      · intro c hc
        exact Nat.lt_trans (h1 c hc)
          (show db.nextId < db.nextId + 1 by omega)
      · intro x hx
        exact Nat.lt_trans (h2 x hx)
          (show db.nextId < db.nextId + 1 by omega)

theorem engineInv_recordContribution (kittyOk : Bool) (d : ContributionInput)
    (db : DB) (h : EngineInv db) (hk : kittyOk = true) :
    EngineInv (recordContribution kittyOk db d).2 := by
  subst hk
  obtain ⟨h1, h2, h3, h4⟩ := h
  simp only [recordContribution]
  split
  · exact ⟨h1, h2, h3, h4⟩
  · split
    · exact ⟨h1, h2, h3, h4⟩
    · rename_i hc hm
      have hany : db.chamas.any (fun c => c.id == d.chama_id) = true := by
        revert hc
        cases db.chamas.any (fun c => c.id == d.chama_id) <;> simp
      obtain ⟨c0, hc0, hc0id⟩ := List.any_eq_true.1 hany
      have hcid : d.chama_id < db.nextId := eq_of_beq hc0id ▸ h1 c0 hc0
      refine ⟨?_, ?_, h3, ?_⟩
      · intro c' hc'
        simp only [updateChamaTotal, List.mem_map] at hc'
        obtain ⟨c, hc, rfl⟩ := hc'
        rw [id_of_kitty_update]
        exact h1 c hc
      · intro x hx
        rcases List.mem_append.1 hx with hx | hx
        · exact h2 x hx
        · rcases List.mem_singleton.1 hx with rfl
          exact hcid
      · intro c' hc'
        simp only [updateChamaTotal, List.mem_map] at hc'
        obtain ⟨c, hc, rfl⟩ := hc'
        by_cases hbc : (c.id == d.chama_id) = true
        · rw [if_pos hbc]
          have hceq : c.id = d.chama_id := eq_of_beq hbc
          simp only [completedSum, updateChamaTotal, hceq]
        · rw [if_neg hbc]
          have hne : c.id ≠ d.chama_id := by simpa using hbc
          have hz : completedSumL
              [{ chama_id := d.chama_id, member_id := d.member_id,
                 amount := d.amount, transaction_code := d.transaction_code,
                 payment_method := d.payment_method,
                 status := ContribStatus.completed }] c.id = 0 := by
            apply completedSumL_eq_zero
            intro x hx
            rcases List.mem_singleton.1 hx with rfl
            exact Ne.symm hne
          have : completedSum db c.id =
              completedSumL (db.contributions ++
                [{ chama_id := d.chama_id, member_id := d.member_id,
                   amount := d.amount, transaction_code := d.transaction_code,
                   payment_method := d.payment_method,
                   status := ContribStatus.completed }]) c.id := by
            rw [completedSumL_append, hz, add_zero]
            rfl
          exact (h4 c hc).trans this

theorem engineInv_requestPayout (uid : Nat) (d : PayoutInput) (db : DB)
    (h : EngineInv db) : EngineInv (requestPayout db uid d).2 := by
  obtain ⟨h1, h2, h3, h4⟩ := h
  simp only [requestPayout]
  repeat' split
  all_goals try exact ⟨h1, h2, h3, h4⟩
  refine ⟨?_, ?_, ?_, h4⟩
  · intro c hc
    exact Nat.lt_trans (h1 c hc)
      (show db.nextId < db.nextId + 1 by omega)
  · intro x hx
    exact Nat.lt_trans (h2 x hx)
      (show db.nextId < db.nextId + 1 by omega)
  · intro r hr
    rcases List.mem_append.1 hr with hr | hr
    · exact h3 r hr
    · rcases List.mem_singleton.1 hr with rfl
      simp

theorem engineInv_checkVoteStatus (ok : Bool) (rid : Nat) (db : DB)
    (h : EngineInv db) : EngineInv (checkVoteStatus ok db rid) := by
  obtain ⟨h1, h2, h3, h4⟩ := h
  refine ⟨?_, ?_, ?_, ?_⟩
  · intro c hc
    rw [checkVoteStatus_chamas] at hc
    rw [checkVoteStatus_nextId]
    exact h1 c hc
  · intro x hx
    rw [checkVoteStatus_contributions] at hx
    rw [checkVoteStatus_nextId]
    exact h2 x hx
  · intro r hr
    rcases checkVoteStatus_status ok db rid r hr with hs | hs | hs
    · rw [hs]
      simp
    · rw [hs]
      simp
    · exact h3 r hs
  · intro c hc
    rw [checkVoteStatus_chamas] at hc
    have hcc : completedSum (checkVoteStatus ok db rid) c.id =
        completedSum db c.id := by
      unfold completedSum
      rw [checkVoteStatus_contributions]
    rw [hcc]
    exact h4 c hc

theorem engineInv_voteOnPayout (ok : Bool) (uid rid : Nat) (v : VoteChoice)
    (db : DB) (h : EngineInv db) : EngineInv (voteOnPayout ok db uid rid v).2 := by
  obtain ⟨h1, h2, h3, h4⟩ := h
  simp only [voteOnPayout]
  repeat' split
  all_goals try exact ⟨h1, h2, h3, h4⟩
  exact engineInv_checkVoteStatus ok rid _ ⟨h1, h2, h3, h4⟩

theorem checkVoteStatusSimple_cases (db : DB) (rid : Nat) :
    checkVoteStatusSimple db rid = db ∨
    checkVoteStatusSimple db rid =
      setRequestStatus db rid RequestStatus.approved := by
  simp only [checkVoteStatusSimple]
  split
  · exact Or.inr rfl
  · exact Or.inl rfl

theorem engineInv_checkVoteStatusSimple (rid : Nat) (db : DB)
    (h : EngineInv db) : EngineInv (checkVoteStatusSimple db rid) := by
  rcases checkVoteStatusSimple_cases db rid with hcv | hcv <;> rw [hcv]
  · exact h
  · obtain ⟨h1, h2, h3, h4⟩ := h
    refine ⟨h1, h2, ?_, h4⟩
    intro r hr
    rcases status_setRequestStatus db rid RequestStatus.approved r hr with
      hs | hs
    · rw [hs]
      simp
    · exact h3 r hs

theorem engineInv_voteOnPayoutSimple (uid rid : Nat) (v : VoteChoice)
    (db : DB) (h : EngineInv db) :
    EngineInv (voteOnPayoutSimple db uid rid v).2 := by
  obtain ⟨h1, h2, h3, h4⟩ := h
  simp only [voteOnPayoutSimple]
  repeat' split
  all_goals try exact ⟨h1, h2, h3, h4⟩
  exact engineInv_checkVoteStatusSimple rid _ ⟨h1, h2, h3, h4⟩

theorem engineInv_applyOp (db : DB) (h : EngineInv db) (o : Op)
    (hk : opKittyOk o = true) : EngineInv (applyOp db o) := by
  cases o with
  | createChama ok del uid d => exact engineInv_createChama ok del uid d db h
  | joinChama uid cid => exact engineInv_joinChama uid cid db h
  | recordContribution kok d =>
      exact engineInv_recordContribution kok d db h hk
  | requestPayout uid d => exact engineInv_requestPayout uid d db h
  | voteOnPayout ok uid rid v => exact engineInv_voteOnPayout ok uid rid v db h
  | voteOnPayoutSimple uid rid v =>
      exact engineInv_voteOnPayoutSimple uid rid v db h

theorem engineInv_applyOps (ops : List Op)
    (hok : ∀ o ∈ ops, opKittyOk o = true) : EngineInv (applyOps ops) := by
  unfold applyOps
  suffices h : ∀ (l : List Op), (∀ o ∈ l, opKittyOk o = true) →
      ∀ db, EngineInv db → EngineInv (l.foldl applyOp db) from
    h ops hok initDB engineInv_initDB
  intro l
  induction l with
  | nil => intro _ db h; exact h
  | cons o t ih =>
      intro hl db h
      exact ih (fun o' ho' => hl o' (List.mem_cons_of_mem _ ho')) _
        (engineInv_applyOp db h o (hl o (List.mem_cons_self _ _)))

/-- Claim C1 (amended): for every circle, at every point after any engine
operation completes, the cached fund balance `total_kitty` equals the sum of
the amounts of its completed contributions minus the sum of the amounts of
its disbursed proposals — PROVIDED every swallowed cached-balance write of
the trace succeeded.  Under that proviso the invariant holds on every store
reachable from the empty store: `updateChamaTotal` maintains `total_kitty`
as the completed-contribution sum, and no repository operation ever moves a
proposal into the disbursed (`paid`) status, so the disbursed sum is `0`.
Without the proviso the claim is false (`c1_counterexample`): the source
discards the result of the `total_kitty` update, so `recordContribution`
reports success while the stale balance violates the equation. -/
theorem c1_kitty_balance_invariant (ops : List Op)
    (hok : ∀ o ∈ ops, opKittyOk o = true) (c : ChamaRow)
    (hc : c ∈ (applyOps ops).chamas) :
    c.total_kitty =
      completedSum (applyOps ops) c.id - disbursedSum (applyOps ops) c.id := by
  obtain ⟨h1, h2, h3, h4⟩ := engineInv_applyOps ops hok
  have hz : disbursedSum (applyOps ops) c.id = 0 :=
    disbursedSumL_eq_zero _ c.id (fun r hr => h3 r hr)
  rw [hz, sub_zero]
  exact h4 c hc

/-- Concrete chama used by the claim C1 witness and counterexample. -/
def c1Chama : ChamaRow :=
  { id := 0, name := "Demo Chama", contribution_amount := 500,
    total_kitty := 0, is_active := true }

/-- Concrete creation payload used by the claim C1 witness and
counterexample. -/
def c1Data : ChamaCreateData :=
  { name := "Demo Chama", description := none, savings_goal := "Buy land",
    contribution_cycle := ContribCycle.monthly, contribution_amount := 500 }

/-- Concrete operation trace used by the claim C1 witness. -/
def c1Ops : List Op := [Op.createChama true true 7 c1Data]

theorem c1_kitty_balance_invariant_witness :
    (∀ o ∈ c1Ops, opKittyOk o = true) ∧
    c1Chama ∈ (applyOps c1Ops).chamas ∧
    c1Chama.total_kitty =
      completedSum (applyOps c1Ops) c1Chama.id -
        disbursedSum (applyOps c1Ops) c1Chama.id :=
  ⟨by decide, by decide,
   c1_kitty_balance_invariant c1Ops (by decide) c1Chama (by decide)⟩

/-- Contribution of 500 by the creator's membership row, with the swallowed
`total_kitty` write failing. -/
def c1In : ContributionInput :=
  { chama_id := 0, member_id := 1, amount := 500, transaction_code := none,
    payment_method := PayMethod.cash }

/-- Trace on which the unamended claim C1 fails: create the circle, then
record a completed contribution whose swallowed cached-balance write fails
(`kittyOk = false`, the error path `lib/contributions.ts` lines 63-66 and
`part_004` lines 118-120 discard). -/
def c1FailOps : List Op :=
  [Op.createChama true true 7 c1Data, Op.recordContribution false c1In]

/-- The ledger row the failing trace `c1FailOps` commits. -/
def c1Row : ContributionRow :=
  { chama_id := 0, member_id := 1, amount := 500, transaction_code := none,
    payment_method := PayMethod.cash, status := ContribStatus.completed }

theorem c1_counterexample :
    (recordContribution false (applyOps c1Ops) c1In).1.success = true ∧
    c1Chama ∈ (applyOps c1FailOps).chamas ∧
    c1Chama.total_kitty ≠
      completedSum (applyOps c1FailOps) c1Chama.id -
        disbursedSum (applyOps c1FailOps) c1Chama.id := by
  refine ⟨by decide, by decide, ?_⟩
  have hcon : (applyOps c1FailOps).contributions = [c1Row] := by decide
  have hreq : (applyOps c1FailOps).payout_requests =
      ([] : List PayoutRequestRow) := by decide
  have h1 : completedSum (applyOps c1FailOps) c1Chama.id = 500 := by
    unfold completedSum completedSumL
    rw [hcon]
    have hfil : List.filter
        (fun c => c.chama_id == c1Chama.id &&
          c.status == ContribStatus.completed) [c1Row] = [c1Row] := by decide
    rw [hfil]
    simp [c1Row]
  have h2 : disbursedSum (applyOps c1FailOps) c1Chama.id = 0 := by
    unfold disbursedSum disbursedSumL
    rw [hreq]
    simp
  rw [h1, h2]
  show c1Chama.total_kitty ≠ 500 - 0
  norm_num [c1Chama]

/-! ## Claim C2 — what the resolver counts -/

theorem statusOf_setRequestStatus (db : DB) (rid : Nat) (st : RequestStatus) :
    statusOf (setRequestStatus db rid st) rid =
      (statusOf db rid).map (fun _ => st) := by
  simp only [statusOf, findRequest, setRequestStatus]
  rw [List.find?_map]
  have hp : ((fun r : PayoutRequestRow => r.id == rid) ∘ fun r =>
      if r.id == rid then { r with status := st } else r) =
      (fun r : PayoutRequestRow => r.id == rid) := by
    funext r
    by_cases h : (r.id == rid) = true
    · have he := eq_of_beq h
      simp [he]
    · have hne : ¬(r.id = rid) := by simpa using h
      simp [hne]
  rw [hp]
  cases hf : db.payout_requests.find? (fun r => r.id == rid) with
  | none => rfl
  | some r =>
      have hr := List.find?_some hf
      have he : r.id = rid := by simpa using hr
      simp [he]

/-- The resolution rule exactly as claim C2 words it: majority and quorum
computed against the number of ACTIVE members of the circle of the proposal,
evaluated fresh on the given store. -/
def specActiveRule (db : DB) (rid : Nat) : Option RequestStatus :=
  match findRequest db rid with
  | none => none
  | some req =>
      let t := (votesFor db rid).length
      let a := approveCount (votesFor db rid)
      let m := (activeMembersOf db req.chama_id).length
      if (a : ℚ) > (t : ℚ) / 2 ∧ (t : ℚ) / (m : ℚ) ≥ 1 / 2 then
        some RequestStatus.approved
      else if t ≥ m then some RequestStatus.rejected
      else some req.status

/-- Claim C2 (amended): after an accepted vote the enhanced resolver
recomputes totalVotes, approveVotes and the member count and transitions, in
order, to approved on `approveVotes > totalVotes / 2` with
`totalVotes / totalMembers ≥ 0.5`, else to rejected on
`totalVotes ≥ totalMembers`, else stays as it was — but `totalMembers`
counts ALL `chama_members` rows of the circle regardless of the `is_active`
flag (floored at 1 when the circle has no member rows), not only the active
members the claim describes. -/
theorem c2_resolver_counts_all_members (db : DB) (rid : Nat)
    (req : PayoutRequestRow) (hreq : findRequest db rid = some req) :
    statusOf (checkVoteStatus true db rid) rid =
      some
        (if (approveCount (votesFor db rid) : ℚ) >
              ((votesFor db rid).length : ℚ) / 2 ∧
            ((votesFor db rid).length : ℚ) /
                ((max (membersOf db req.chama_id).length 1 : ℕ) : ℚ) ≥
              1 / 2 then
          RequestStatus.approved
        else if (votesFor db rid).length ≥
            max (membersOf db req.chama_id).length 1 then
          RequestStatus.rejected
        else req.status) := by
  simp only [checkVoteStatus, hreq, eq_self_iff_true, if_true]
  have hmx : 0 < max (membersOf db req.chama_id).length 1 := by omega
  by_cases hA : 2 * approveCount (votesFor db rid) >
      (votesFor db rid).length ∧
      2 * (votesFor db rid).length ≥ max (membersOf db req.chama_id).length 1
  · have hQ : (approveCount (votesFor db rid) : ℚ) >
        ((votesFor db rid).length : ℚ) / 2 ∧
        ((votesFor db rid).length : ℚ) /
            ((max (membersOf db req.chama_id).length 1 : ℕ) : ℚ) ≥ 1 / 2 :=
      ⟨(majority_iff _ _).1 hA.1, (quorum_iff _ _ hmx).1 hA.2⟩
    rw [if_pos hA, if_pos hQ, statusOf_setRequestStatus]
    simp [statusOf, hreq]
  · have hQ : ¬((approveCount (votesFor db rid) : ℚ) >
        ((votesFor db rid).length : ℚ) / 2 ∧
        ((votesFor db rid).length : ℚ) /
            ((max (membersOf db req.chama_id).length 1 : ℕ) : ℚ) ≥ 1 / 2) :=
      fun hq => hA ⟨(majority_iff _ _).2 hq.1, (quorum_iff _ _ hmx).2 hq.2⟩
    rw [if_neg hA, if_neg hQ]
    by_cases hR : (votesFor db rid).length ≥
        max (membersOf db req.chama_id).length 1
    · rw [if_pos hR, if_pos hR, statusOf_setRequestStatus]
      simp [statusOf, hreq]
    · rw [if_neg hR, if_neg hR]
      simp [statusOf, hreq]

theorem checkVoteStatus_votes (ok : Bool) (db : DB) (rid : Nat) :
    (checkVoteStatus ok db rid).payout_votes = db.payout_votes := by
  simp only [checkVoteStatus]
  repeat' split
  all_goals rfl

theorem checkVoteStatus_cases (ok : Bool) (db : DB) (rid : Nat) :
    checkVoteStatus ok db rid = db ∨
    checkVoteStatus ok db rid = setRequestStatus db rid RequestStatus.approved ∨
    checkVoteStatus ok db rid = setRequestStatus db rid RequestStatus.rejected := by
  simp only [checkVoteStatus]
  repeat' split
  all_goals first
    | exact Or.inl rfl
    | exact Or.inr (Or.inl rfl)
    | exact Or.inr (Or.inr rfl)

theorem findRequest_setRequestStatus (db : DB) (rid : Nat) (st : RequestStatus) :
    findRequest (setRequestStatus db rid st) rid =
      (findRequest db rid).map (fun r => { r with status := st }) := by
  simp only [findRequest, setRequestStatus]
  rw [List.find?_map]
  have hp : ((fun r : PayoutRequestRow => r.id == rid) ∘ fun r =>
      if r.id == rid then { r with status := st } else r) =
      (fun r : PayoutRequestRow => r.id == rid) := by
    funext r
    by_cases h : (r.id == rid) = true
    · have he := eq_of_beq h
      simp [he]
    · have hne : ¬(r.id = rid) := by simpa using h
      simp [hne]
  rw [hp]
  cases hf : db.payout_requests.find? (fun r => r.id == rid) with
  | none => rfl
  | some r =>
      have hr := List.find?_some hf
      have he : r.id = rid := by simpa using hr
      simp [he]

theorem statusOf_setRequestStatus_ne (db : DB) (rid' : Nat) (st : RequestStatus)
    (rid : Nat) (hne : rid ≠ rid') :
    statusOf (setRequestStatus db rid' st) rid = statusOf db rid := by
  simp only [statusOf, findRequest, setRequestStatus]
  rw [List.find?_map]
  have hp : ((fun r : PayoutRequestRow => r.id == rid) ∘ fun r =>
      if r.id == rid' then { r with status := st } else r) =
      (fun r : PayoutRequestRow => r.id == rid) := by
    funext r
    by_cases h : (r.id == rid') = true
    · have he := eq_of_beq h
      simp [he]
    · have hne' : ¬(r.id = rid') := by simpa using h
      simp [hne']
  rw [hp]
  cases hf : db.payout_requests.find? (fun r => r.id == rid) with
  | none => rfl
  | some r =>
      have hr := List.find?_some hf
      have he : r.id = rid := by simpa using hr
      have : ¬(r.id = rid') := fun habs => hne (he ▸ habs)
      simp [this]

/-- Store for the claim C2 witness and counterexample: one circle with three
member rows, one of which is inactive, and one pending payout request. -/
def c2DB : DB :=
  { nextId := 5
    chamas := [{ id := 0, name := "Circle", contribution_amount := 1000,
                 total_kitty := 5000, is_active := true }]
    chama_members :=
      [{ id := 1, chama_id := 0, user_id := 11, role := Role.chairperson,
         is_active := true },
       { id := 2, chama_id := 0, user_id := 12, role := Role.member,
         is_active := true },
       { id := 3, chama_id := 0, user_id := 13, role := Role.member,
         is_active := false }]
    contributions := []
    payout_requests := [{ id := 4, chama_id := 0, member_id := 1, amount := 500,
                          request_type := ReqType.payout, interest_rate := none,
                          repayment_period := none,
                          status := RequestStatus.pending }]
    payout_votes := [] }

/-- The request row of `c2DB`. -/
def c2Req : PayoutRequestRow :=
  { id := 4, chama_id := 0, member_id := 1, amount := 500,
    request_type := ReqType.payout, interest_rate := none,
    repayment_period := none, status := RequestStatus.pending }

theorem c2_resolver_counts_all_members_witness :
    statusOf (checkVoteStatus true c2DB 4) 4 =
      some
        (if (approveCount (votesFor c2DB 4) : ℚ) >
              ((votesFor c2DB 4).length : ℚ) / 2 ∧
            ((votesFor c2DB 4).length : ℚ) /
                ((max (membersOf c2DB c2Req.chama_id).length 1 : ℕ) : ℚ) ≥
              1 / 2 then
          RequestStatus.approved
        else if (votesFor c2DB 4).length ≥
            max (membersOf c2DB c2Req.chama_id).length 1 then
          RequestStatus.rejected
        else c2Req.status) :=
  c2_resolver_counts_all_members c2DB 4 c2Req (by decide)

/-- The store after the active member `11` casts an approve vote on request
`4` of `c2DB`. -/
def c2After : DB := (voteOnPayout true c2DB 11 4 VoteChoice.approve).2

/-- Claim C2 counterexample: the circle has two active members and one
inactive member row.  After the single approve vote the claimed rule
(counted over ACTIVE members: participation 1/2 ≥ 0.5, approval 1 > 1/2)
resolves the proposal to approved, but the code — which counts the inactive
row too, giving participation 1/3 — leaves it pending. -/
theorem c2_counterexample :
    (voteOnPayout true c2DB 11 4 VoteChoice.approve).1 = svcOk ∧
    (activeMembersOf c2After 0).length = 2 ∧
    specActiveRule c2After 4 = some RequestStatus.approved ∧
    statusOf c2After 4 = some RequestStatus.pending := by
  refine ⟨by decide, by decide, ?_, by decide⟩
  have h1 : findRequest c2After 4 = some c2Req := by decide
  have h2 : (votesFor c2After 4).length = 1 := by decide
  have h3 : approveCount (votesFor c2After 4) = 1 := by decide
  have h4 : (activeMembersOf c2After c2Req.chama_id).length = 2 := by decide
  simp only [specActiveRule, h1, h2, h3, h4]
  norm_num

/-! ## Claim C3 — the 50/50 full-participation tie -/

/-- Store for claim C3: one circle with two (active) members who have both
voted on the pending request `5` — one approve, one reject: a 50/50 tie with
full participation. -/
def c3DB : DB :=
  { nextId := 6
    chamas := [{ id := 0, name := "Circle", contribution_amount := 1000,
                 total_kitty := 4000, is_active := true }]
    chama_members :=
      [{ id := 1, chama_id := 0, user_id := 21, role := Role.chairperson,
         is_active := true },
       { id := 2, chama_id := 0, user_id := 22, role := Role.member,
         is_active := true }]
    contributions := []
    payout_requests := [{ id := 5, chama_id := 0, member_id := 1, amount := 300,
                          request_type := ReqType.payout, interest_rate := none,
                          repayment_period := none,
                          status := RequestStatus.pending }]
    payout_votes :=
      [{ payout_request_id := 5, member_id := 1, vote := VoteChoice.approve },
       { payout_request_id := 5, member_id := 2, vote := VoteChoice.reject }] }

/-- The request row of `c3DB`. -/
def c3Req : PayoutRequestRow :=
  { id := 5, chama_id := 0, member_id := 1, amount := 300,
    request_type := ReqType.payout, interest_rate := none,
    repayment_period := none, status := RequestStatus.pending }

/-- Claim C3 counterexample: the repository carries a second resolver,
`PayoutService.checkVoteStatus` of `src/lib/payouts.ts`, which only ever
approves on strict majority.  On a 50/50 tie with full participation (all
members voted, exactly half approve) it leaves the proposal pending — the
claim says the resolver never leaves it pending. -/
theorem c3_counterexample :
    (votesFor c3DB 5).length = (membersOf c3DB 0).length ∧
    2 * approveCount (votesFor c3DB 5) = (votesFor c3DB 5).length ∧
    statusOf (checkVoteStatusSimple c3DB 5) 5 = some RequestStatus.pending := by
  decide

/-- Claim C3 (amended): under the quorum-based resolver of the enhanced
`PayoutService` a 50/50 tie with full participation resolves to rejected:
the strict majority test fails and the everyone-has-voted fallback fires.
(The plain-majority resolver of `src/lib/payouts.ts` instead leaves such a
proposal pending.) -/
theorem c3_tie_with_full_participation_rejected (db : DB) (rid : Nat)
    (req : PayoutRequestRow) (hreq : findRequest db rid = some req)
    (hfull : (votesFor db rid).length = (membersOf db req.chama_id).length)
    (htie : 2 * approveCount (votesFor db rid) = (votesFor db rid).length)
    (hpos : 0 < (membersOf db req.chama_id).length) :
    statusOf (checkVoteStatus true db rid) rid =
      some RequestStatus.rejected := by
  simp only [checkVoteStatus, hreq, eq_self_iff_true, if_true]
  have hm : max (membersOf db req.chama_id).length 1 =
      (membersOf db req.chama_id).length := by omega
  simp only [hm]
  have hA : ¬(2 * approveCount (votesFor db rid) > (votesFor db rid).length ∧
      2 * (votesFor db rid).length ≥ (membersOf db req.chama_id).length) := by
    intro h
    omega
  rw [if_neg hA]
  have hR : (votesFor db rid).length ≥ (membersOf db req.chama_id).length := by
    omega
  rw [if_pos hR, statusOf_setRequestStatus]
  simp [statusOf, hreq]

theorem c3_tie_with_full_participation_rejected_witness :
    statusOf (checkVoteStatus true c3DB 5) 5 = some RequestStatus.rejected :=
  c3_tie_with_full_participation_rejected c3DB 5 c3Req (by decide) (by decide)
    (by decide) (by decide)

/-! ## Claim C4 — voting on a non-pending proposal -/

theorem statusOf_congr_requests (db1 db2 : DB) (rid : Nat)
    (h : db1.payout_requests = db2.payout_requests) :
    statusOf db1 rid = statusOf db2 rid := by
  simp only [statusOf, findRequest, h]

/-- Store for the claim C4 terminal-escape part: request `9` of a 3-member
circle was already resolved to rejected on the votes of members `1`
(approve) and `2` (reject); member row `3` (user `43`, newly joined) has not
voted. -/
def c4FlipDB : DB :=
  { nextId := 10
    chamas := [{ id := 0, name := "Circle", contribution_amount := 1000,
                 total_kitty := 4000, is_active := true }]
    chama_members :=
      [{ id := 1, chama_id := 0, user_id := 41, role := Role.chairperson,
         is_active := true },
       { id := 2, chama_id := 0, user_id := 42, role := Role.member,
         is_active := true },
       { id := 3, chama_id := 0, user_id := 43, role := Role.member,
         is_active := true }]
    contributions := []
    payout_requests := [{ id := 9, chama_id := 0, member_id := 1, amount := 300,
                          request_type := ReqType.payout, interest_rate := none,
                          repayment_period := none,
                          status := RequestStatus.rejected }]
    payout_votes :=
      [{ payout_request_id := 9, member_id := 1, vote := VoteChoice.approve },
       { payout_request_id := 9, member_id := 2, vote := VoteChoice.reject }] }

/-- Claim C4 (amended): in the enhanced `PayoutService` a vote on a proposal
whose status is not pending fails with the voting-closed error and changes
nothing.  Terminal statuses are NOT final in the repository, though: the
`voteOnPayout` of `src/lib/payouts.ts` performs no status check and its
resolver updates the status without a pending guard, so a newly joined
member's approve vote on an already-rejected proposal is accepted and flips
it to approved (`c4FlipDB`: user `43` votes approve on the rejected request
`9`, making 2 approvals of 3 votes, and the proposal becomes approved). -/
theorem c4_voting_closed_and_terminal (db : DB) (rid : Nat)
    (req : PayoutRequestRow) (hreq : findRequest db rid = some req)
    (hst : req.status ≠ RequestStatus.pending) :
    (∀ (ok : Bool) (uid : Nat) (v : VoteChoice),
      voteOnPayout ok db uid rid v =
        (svcErr "Voting is closed for this request", db)) ∧
    (statusOf c4FlipDB 9 = some RequestStatus.rejected ∧
     (voteOnPayoutSimple c4FlipDB 43 9 VoteChoice.approve).1 = svcOk ∧
     statusOf (voteOnPayoutSimple c4FlipDB 43 9 VoteChoice.approve).2 9 =
       some RequestStatus.approved) := by
  refine ⟨?_, by decide, by decide, by decide⟩
  intro ok uid v
  simp only [voteOnPayout, hreq]
  rw [if_pos hst]

/-- Store for claim C4: request `7` is already approved; member row `2`
(user `42`) has not voted on it yet. -/
def c4DB : DB :=
  { nextId := 8
    chamas := [{ id := 0, name := "Circle", contribution_amount := 1000,
                 total_kitty := 4000, is_active := true }]
    chama_members :=
      [{ id := 1, chama_id := 0, user_id := 41, role := Role.chairperson,
         is_active := true },
       { id := 2, chama_id := 0, user_id := 42, role := Role.member,
         is_active := true }]
    contributions := []
    payout_requests := [{ id := 7, chama_id := 0, member_id := 1, amount := 300,
                          request_type := ReqType.payout, interest_rate := none,
                          repayment_period := none,
                          status := RequestStatus.approved }]
    payout_votes :=
      [{ payout_request_id := 7, member_id := 1, vote := VoteChoice.approve }] }

/-- The approved request row of `c4DB`. -/
def c4Req : PayoutRequestRow :=
  { id := 7, chama_id := 0, member_id := 1, amount := 300,
    request_type := ReqType.payout, interest_rate := none,
    repayment_period := none, status := RequestStatus.approved }

/-- Claim C4 counterexample: `voteOnPayout` of `src/lib/payouts.ts` performs
no status check — a first-time voter on the already-approved request `7`
succeeds and a vote row is inserted, contradicting the claim that every such
attempt fails with a voting-closed error and inserts nothing. -/
theorem c4_counterexample :
    statusOf c4DB 7 = some RequestStatus.approved ∧
    (voteOnPayoutSimple c4DB 42 7 VoteChoice.approve).1 = svcOk ∧
    (voteOnPayoutSimple c4DB 42 7 VoteChoice.approve).2.payout_votes =
      c4DB.payout_votes ++
        [{ payout_request_id := 7, member_id := 2,
           vote := VoteChoice.approve }] := by
  decide

theorem c4_voting_closed_and_terminal_witness :
    voteOnPayout true c4DB 42 7 VoteChoice.approve =
      (svcErr "Voting is closed for this request", c4DB) ∧
    statusOf (voteOnPayoutSimple c4FlipDB 43 9 VoteChoice.approve).2 9 =
      some RequestStatus.approved :=
  ⟨(c4_voting_closed_and_terminal c4DB 7 c4Req (by decide) (by decide)).1
      true 42 VoteChoice.approve,
   (c4_voting_closed_and_terminal c4DB 7 c4Req (by decide) (by decide)).2.2.2⟩

/-! ## Claim C5 — no double vote -/

/-- At most one vote row per (request, member) pair. -/
def VotesDistinct (db : DB) : Prop :=
  db.payout_votes.Pairwise (fun w w' =>
    ¬(w.payout_request_id = w'.payout_request_id ∧ w.member_id = w'.member_id))

/-- The vote insert of `voteOnPayout`, as a store transform (proof helper). -/
def insertVote (db : DB) (rid mid : Nat) (v : VoteChoice) : DB :=
  { db with payout_votes := db.payout_votes ++
      [{ payout_request_id := rid, member_id := mid, vote := v }] }

instance (db : DB) : Decidable (VotesDistinct db) := by
  unfold VotesDistinct
  infer_instance

/-- Claim C5 (amended): a successful vote never duplicates a
(request, member) pair, and a second `voteOnPayout` call by the same user on
the same request always fails and leaves the store unchanged — with the
already-voted error while the proposal is still pending, but with the
voting-closed error when the first vote itself resolved the proposal (the
pending check of the source runs before the duplicate check). -/
theorem c5_no_double_vote (ok ok₂ : Bool) (db : DB) (uid rid : Nat)
    (v v₂ : VoteChoice) (hnd : VotesDistinct db)
    (h1 : (voteOnPayout ok db uid rid v).1.success = true) :
    VotesDistinct (voteOnPayout ok db uid rid v).2 ∧
    (voteOnPayout ok₂ (voteOnPayout ok db uid rid v).2 uid rid v₂).1.success =
      false ∧
    (voteOnPayout ok₂ (voteOnPayout ok db uid rid v).2 uid rid v₂).2 =
      (voteOnPayout ok db uid rid v).2 := by
  rcases hfr : findRequest db rid with _ | req
  · exfalso
    simp [voteOnPayout, hfr, svcErr] at h1
  by_cases hp : req.status ≠ RequestStatus.pending
  · exfalso
    simp only [voteOnPayout, hfr] at h1
    rw [if_pos hp] at h1
    simp [svcErr] at h1
  rcases hm : findMembership db req.chama_id uid with _ | m
  · exfalso
    simp only [voteOnPayout, hfr] at h1
    rw [if_neg hp] at h1
    simp [hm, svcErr] at h1
  by_cases hv : (db.payout_votes.any fun w =>
      w.payout_request_id == rid && w.member_id == m.id) = true
  · exfalso
    simp only [voteOnPayout, hfr] at h1
    rw [if_neg hp] at h1
    simp only [hm] at h1
    rw [if_pos hv] at h1
    simp [svcErr] at h1
  have hres : (voteOnPayout ok db uid rid v).2 =
      checkVoteStatus ok (insertVote db rid m.id v) rid := by
    simp only [voteOnPayout, hfr]
    rw [if_neg hp]
    simp only [hm]
    rw [if_neg hv]
    rfl
  have hvotes2 : (checkVoteStatus ok (insertVote db rid m.id v) rid).payout_votes =
      db.payout_votes ++
        [{ payout_request_id := rid, member_id := m.id, vote := v }] :=
    checkVoteStatus_votes ok (insertVote db rid m.id v) rid
  have hA : VotesDistinct (voteOnPayout ok db uid rid v).2 := by
    rw [hres]
    unfold VotesDistinct
    rw [hvotes2, List.pairwise_append]
    refine ⟨hnd, List.pairwise_singleton _ _, ?_⟩
    intro w hw w' hw'
    rcases List.mem_singleton.1 hw' with rfl
    rintro ⟨he1, he2⟩
    exact hv (List.any_eq_true.2 ⟨w, hw, by simp [he1, he2]⟩)
  have hsecond :
      (voteOnPayout ok₂ (checkVoteStatus ok (insertVote db rid m.id v) rid)
        uid rid v₂).1.success = false ∧
      (voteOnPayout ok₂ (checkVoteStatus ok (insertVote db rid m.id v) rid)
        uid rid v₂).2 = checkVoteStatus ok (insertVote db rid m.id v) rid := by
    rcases checkVoteStatus_cases ok (insertVote db rid m.id v) rid
      with hcv | hcv | hcv
    · have hfr' : findRequest
          (checkVoteStatus ok (insertVote db rid m.id v) rid) rid =
          some req := by
        rw [hcv]
        exact hfr
      have hm' : findMembership
          (checkVoteStatus ok (insertVote db rid m.id v) rid)
          req.chama_id uid = some m := by
        have hmm := checkVoteStatus_members ok (insertVote db rid m.id v) rid
        unfold findMembership
        rw [hmm]
        exact hm
      have hv' : ((checkVoteStatus ok (insertVote db rid m.id v)
          rid).payout_votes.any fun w =>
            w.payout_request_id == rid && w.member_id == m.id) = true := by
        rw [hvotes2, List.any_eq_true]
        exact ⟨{ payout_request_id := rid, member_id := m.id, vote := v },
          by simp, by simp⟩
      have hcall : voteOnPayout ok₂
          (checkVoteStatus ok (insertVote db rid m.id v) rid) uid rid v₂ =
          (svcErr "Already voted on this request",
           checkVoteStatus ok (insertVote db rid m.id v) rid) := by
        simp only [voteOnPayout, hfr']
        rw [if_neg hp]
        simp only [hm']
        rw [if_pos hv']
      rw [hcall]
      exact ⟨rfl, rfl⟩
    · have hfr' : findRequest
          (checkVoteStatus ok (insertVote db rid m.id v) rid) rid =
          some { req with status := RequestStatus.approved } := by
        rw [hcv, findRequest_setRequestStatus]
        rw [show findRequest (insertVote db rid m.id v) rid = some req
          from hfr]
        rfl
      have hcall : voteOnPayout ok₂
          (checkVoteStatus ok (insertVote db rid m.id v) rid) uid rid v₂ =
          (svcErr "Voting is closed for this request",
           checkVoteStatus ok (insertVote db rid m.id v) rid) := by
        simp only [voteOnPayout, hfr']
        rw [if_pos (by simp)]
      rw [hcall]
      exact ⟨rfl, rfl⟩
    · have hfr' : findRequest
          (checkVoteStatus ok (insertVote db rid m.id v) rid) rid =
          some { req with status := RequestStatus.rejected } := by
        rw [hcv, findRequest_setRequestStatus]
        rw [show findRequest (insertVote db rid m.id v) rid = some req
          from hfr]
        rfl
      have hcall : voteOnPayout ok₂
          (checkVoteStatus ok (insertVote db rid m.id v) rid) uid rid v₂ =
          (svcErr "Voting is closed for this request",
           checkVoteStatus ok (insertVote db rid m.id v) rid) := by
        simp only [voteOnPayout, hfr']
        rw [if_pos (by simp)]
      rw [hcall]
      exact ⟨rfl, rfl⟩
  refine ⟨hA, ?_, ?_⟩
  · rw [hres]
    exact hsecond.1
  · rw [hres]
    exact hsecond.2

/-- Store for claim C5: a single-member circle with the pending request `6`
whose one vote will both succeed and resolve the proposal. -/
def c5DB : DB :=
  { nextId := 7
    chamas := [{ id := 0, name := "Circle", contribution_amount := 1000,
                 total_kitty := 4000, is_active := true }]
    chama_members :=
      [{ id := 1, chama_id := 0, user_id := 31, role := Role.chairperson,
         is_active := true }]
    contributions := []
    payout_requests := [{ id := 6, chama_id := 0, member_id := 1, amount := 300,
                          request_type := ReqType.payout, interest_rate := none,
                          repayment_period := none,
                          status := RequestStatus.pending }]
    payout_votes := [] }

/-- The store after the single member votes approve on request `6`: the
vote resolves the proposal to approved. -/
def c5After : DB := (voteOnPayout true c5DB 31 6 VoteChoice.approve).2

/-- Claim C5 counterexample: the first vote of the only member resolves the
proposal, so the same member voting a second time receives the VOTING-CLOSED
error, not the already-voted error the claim names — though indeed no second
vote row is created. -/
theorem c5_counterexample :
    (voteOnPayout true c5DB 31 6 VoteChoice.approve).1 = svcOk ∧
    (voteOnPayout true c5After 31 6 VoteChoice.reject).1 =
      svcErr "Voting is closed for this request" ∧
    (voteOnPayout true c5After 31 6 VoteChoice.reject).1 ≠
      svcErr "Already voted on this request" ∧
    (voteOnPayout true c5After 31 6 VoteChoice.reject).2 = c5After := by
  decide

theorem c5_no_double_vote_witness :
    VotesDistinct (voteOnPayout true c5DB 31 6 VoteChoice.approve).2 ∧
    (voteOnPayout true (voteOnPayout true c5DB 31 6 VoteChoice.approve).2
      31 6 VoteChoice.reject).1.success = false ∧
    (voteOnPayout true (voteOnPayout true c5DB 31 6 VoteChoice.approve).2
      31 6 VoteChoice.reject).2 =
      (voteOnPayout true c5DB 31 6 VoteChoice.approve).2 :=
  c5_no_double_vote true true c5DB 31 6 VoteChoice.approve VoteChoice.reject
    (by decide) (by decide)

/-! ## Claim C6 — idempotence of `recordContribution` on the external reference -/

/-- The ledger row `recordContribution` inserts (proof helper). -/
def contribRow (d : ContributionInput) : ContributionRow :=
  { chama_id := d.chama_id, member_id := d.member_id, amount := d.amount,
    transaction_code := d.transaction_code, payment_method := d.payment_method,
    status := ContribStatus.completed }

/-- The contribution insert of `recordContribution`, as a store transform
(proof helper). -/
def insertContribution (db : DB) (d : ContributionInput) : DB :=
  { db with contributions := db.contributions ++ [contribRow d] }

theorem updateChamaTotal_any_id (ok : Bool) (db : DB) (cid x : Nat) :
    ((updateChamaTotal ok db cid).chamas.any fun c => c.id == x) =
      (db.chamas.any fun c => c.id == x) := by
  cases ok
  · rfl
  · simp only [updateChamaTotal, List.any_map]
    congr 1
    funext c
    simp only [Function.comp]
    rw [id_of_kitty_update]

theorem updateChamaTotal_contributions (ok : Bool) (db : DB) (cid : Nat) :
    (updateChamaTotal ok db cid).contributions = db.contributions := by
  cases ok <;> rfl

theorem updateChamaTotal_members (ok : Bool) (db : DB) (cid : Nat) :
    (updateChamaTotal ok db cid).chama_members = db.chama_members := by
  cases ok <;> rfl

/-- Claim C6 (amended): `recordContribution` performs NO duplicate lookup on
the external reference — whenever a call with `transaction_code = ref`
succeeds, an identical second call succeeds as well and the ledger ends up
with two entries carrying `ref` (two more than before), instead of the one
entry the claim demands.  This holds whatever the swallowed cached-balance
writes do (`ok1`, `ok2` arbitrary): the duplicate insert precedes the kitty
write. -/
theorem c6_not_idempotent (ok1 ok2 : Bool) (db : DB) (d : ContributionInput)
    (ref : String) (hcode : d.transaction_code = some ref)
    (h1 : (recordContribution ok1 db d).1.success = true) :
    (recordContribution ok2 (recordContribution ok1 db d).2 d).1.success =
      true ∧
    contribsWithCode
        (recordContribution ok2 (recordContribution ok1 db d).2 d).2 ref =
      contribsWithCode db ref + 2 := by
  by_cases hc : (db.chamas.any fun c => c.id == d.chama_id) = true
  case neg =>
    exfalso
    simp only [recordContribution] at h1
    rw [if_pos (by simpa using hc)] at h1
    simp [svcErr] at h1
  by_cases hmem : (db.chama_members.any fun mm => mm.id == d.member_id) = true
  case neg =>
    exfalso
    simp only [recordContribution] at h1
    rw [if_neg (by simp [hc]), if_pos (by simpa using hmem)] at h1
    simp [svcErr] at h1
  have hres1 : recordContribution ok1 db d =
      (svcOk, updateChamaTotal ok1 (insertContribution db d) d.chama_id) := by
    simp only [recordContribution]
    rw [if_neg (by simp [hc]), if_neg (by simp [hmem])]
    rfl
  have hA2 : (recordContribution ok1 db d).2 =
      updateChamaTotal ok1 (insertContribution db d) d.chama_id := by
    rw [hres1]
  have h2c : ((updateChamaTotal ok1 (insertContribution db d)
      d.chama_id).chamas.any fun c => c.id == d.chama_id) = true := by
    rw [updateChamaTotal_any_id]
    exact hc
  have h2m : ((updateChamaTotal ok1 (insertContribution db d)
      d.chama_id).chama_members.any fun mm => mm.id == d.member_id) =
      true := by
    rw [updateChamaTotal_members]
    exact hmem
  have hres2 : recordContribution ok2
      (updateChamaTotal ok1 (insertContribution db d) d.chama_id) d =
      (svcOk, updateChamaTotal ok2
        (insertContribution
          (updateChamaTotal ok1 (insertContribution db d) d.chama_id) d)
        d.chama_id) := by
    simp only [recordContribution]
    rw [if_neg (by simp [h2c]), if_neg (by simp [h2m])]
    rfl
  have hB2 : (recordContribution ok2
      (updateChamaTotal ok1 (insertContribution db d) d.chama_id) d).2 =
      updateChamaTotal ok2
        (insertContribution
          (updateChamaTotal ok1 (insertContribution db d) d.chama_id) d)
        d.chama_id := by
    rw [hres2]
  constructor
  · rw [hA2, hres2]
    rfl
  · rw [hA2, hB2]
    have hcontr : (updateChamaTotal ok2
        (insertContribution
          (updateChamaTotal ok1 (insertContribution db d) d.chama_id) d)
        d.chama_id).contributions =
        (db.contributions ++ [contribRow d]) ++ [contribRow d] := by
      rw [updateChamaTotal_contributions]
      show (updateChamaTotal ok1 (insertContribution db d)
          d.chama_id).contributions ++ [contribRow d] = _
      rw [updateChamaTotal_contributions]
      rfl
    unfold contribsWithCode
    rw [hcontr, List.filter_append, List.filter_append, List.length_append,
      List.length_append]
    simp [contribRow, hcode]

/-- Store for claim C6: one circle, one member, an empty ledger. -/
def c6DB : DB :=
  { nextId := 2
    chamas := [{ id := 0, name := "Circle", contribution_amount := 1000,
                 total_kitty := 0, is_active := true }]
    chama_members :=
      [{ id := 1, chama_id := 0, user_id := 51, role := Role.chairperson,
         is_active := true }]
    contributions := []
    payout_requests := []
    payout_votes := [] }

/-- A payment-confirmation payload carrying the external reference
`QA1`. -/
def c6Input : ContributionInput :=
  { chama_id := 0, member_id := 1, amount := 500,
    transaction_code := some "QA1", payment_method := PayMethod.mpesa }

/-- The store after one `recordContribution` call (all writes succeed). -/
def c6Once : DB := (recordContribution true c6DB c6Input).2

/-- The store after the retried (identical) second call. -/
def c6Twice : DB := (recordContribution true c6Once c6Input).2

/-- Claim C6 counterexample: both calls with the same `transaction_code`
succeed and the ledger holds TWO entries with that reference — the claim
demands exactly one, with the second call returning the existing record. -/
theorem c6_counterexample :
    (recordContribution true c6DB c6Input).1 = svcOk ∧
    (recordContribution true c6Once c6Input).1 = svcOk ∧
    contribsWithCode c6Twice "QA1" = 2 := by
  decide

theorem c6_not_idempotent_witness :
    (recordContribution true
        (recordContribution true c6DB c6Input).2 c6Input).1.success = true ∧
    contribsWithCode
        (recordContribution true
          (recordContribution true c6DB c6Input).2 c6Input).2 "QA1" =
      contribsWithCode c6DB "QA1" + 2 :=
  c6_not_idempotent true true c6DB c6Input "QA1" rfl (by decide)

/-! ## Claim C7 — loan-term validation and the zero interest rate -/

/-- The failing input of claim C7: a loan request that is valid in every
respect (well-formed UUID, amount in range, purpose long enough, repayment
period 12) except that its interest rate is `0` — which the spec and the
schema CHECK constraint (`interest_rate >= 0 AND interest_rate <= 100`)
admit. -/
def c7Input : PayoutRequestData :=
  { chama_id := "12345678-1234-1234-8234-123456789abc", amount := 3000,
    request_type := ReqType.loan, purpose := "School fees loan",
    interest_rate := some 0, repayment_period := some 12 }

/-- Claim C7: the code slips on the lower bound.  Because the source guards
the loan terms with the JS truthiness test `!requestData.interest_rate`, the
in-range interest rate `0` is rejected with the very error message —
`Valid interest rate required (0-100%)` — that documents `0` as valid, while
the otherwise identical request with rate `1` passes.  The claim (rate in
[0,100], 0 included) matches the spec and the schema; the code contradicts
them. -/
theorem c7_zero_interest_rejected :
    isValidUUID "12345678-1234-1234-8234-123456789abc" = true ∧
    validatePayoutRequest c7Input =
      vErr "Valid interest rate required (0-100%)" ∧
    validatePayoutRequest { c7Input with interest_rate := some 1 } = vOk ∧
    validatePayoutRequest { c7Input with interest_rate := none } =
      vErr "Valid interest rate required (0-100%)" := by
  decide

/-! ## Claim C8 — installment generation (modelled from the spec) -/

/-- Modelled from the spec: the repository contains NO disbursement code —
the `loan_repayments` table of the SQL schema is the only trace of it — so
installment generation is modelled from the spec sentence: generate
`RepaymentInstallment` rows by dividing `amount × (1 + interestRate/100)`
evenly across `repaymentPeriod` months. -/
def generateInstallments (amount interestRate : ℚ) (repaymentPeriod : Nat) :
    List ℚ :=
  List.replicate repaymentPeriod
    (amount * (1 + interestRate / 100) / (repaymentPeriod : ℚ))

/-- Claim C8 counterexample: the `request_status` enum of the SQL schema has
no `repaying` value, so the claimed transition of the proposal to
`'repaying'` cannot be persisted in the `payout_requests.status` column. -/
theorem c8_counterexample : "repaying" ∉ requestStatusValues := by
  decide

/-- Claim C8 (amended): the modelled installments are
`amount × (1 + rate/100) / period` each and sum to the total repayable
amount `amount × (1 + rate/100)`; the 3,000 loan at 10% over 3 months gives
three installments of 1,100 summing to 3,300.  (The proposal cannot
transition to `'repaying'`: that value is absent from the schema enum, whose
closest loan-terminal value is `'paid'`.) -/
theorem c8_installments_sum (amount rate : ℚ) (n : Nat) (hn : n ≠ 0) :
    (generateInstallments amount rate n).sum = amount * (1 + rate / 100) ∧
    generateInstallments 3000 10 3 = [1100, 1100, 1100] := by
  constructor
  · unfold generateInstallments
    rw [List.sum_replicate, nsmul_eq_mul, mul_comm,
      div_mul_cancel₀ _ (Nat.cast_ne_zero.mpr hn : ((n : ℚ) ≠ 0))]
  · unfold generateInstallments
    rw [show (3000 * (1 + (10 : ℚ) / 100) / ((3 : Nat) : ℚ) : ℚ) = 1100 by
      norm_num]
    rfl

theorem c8_installments_sum_witness :
    (generateInstallments 3000 10 3).sum = 3000 * (1 + 10 / 100) ∧
    generateInstallments 3000 10 3 = [1100, 1100, 1100] :=
  c8_installments_sum 3000 10 3 (by decide)

/-! ## Claim C9 — resolution consistency with the vote insert -/

/-- The resolution rule of the code, applied to a store: approved on strict
vote majority with half-participation, rejected once every member row has
voted, else whatever status the row currently holds. -/
def codeResolveStatus (db : DB) (rid : Nat) : Option RequestStatus :=
  match findRequest db rid with
  | none => none
  | some req =>
      let t := (votesFor db rid).length
      let a := approveCount (votesFor db rid)
      let m := max (membersOf db req.chama_id).length 1
      if 2 * a > t ∧ 2 * t ≥ m then some RequestStatus.approved
      else if t ≥ m then some RequestStatus.rejected
      else some req.status

/-- Claim C9 (amended): when every store write succeeds, a successful
`voteOnPayout` leaves the persisted status equal to the resolution rule
applied to the recorded votes.  (Atomicity as claimed fails: the resolution
runs after — not inside — the vote-insert transaction and swallows its own
errors; see the counterexample with a failing status update.) -/
theorem c9_status_matches_rule_when_store_ok (db : DB) (uid rid : Nat)
    (v : VoteChoice)
    (h1 : (voteOnPayout true db uid rid v).1.success = true) :
    statusOf (voteOnPayout true db uid rid v).2 rid =
      codeResolveStatus (voteOnPayout true db uid rid v).2 rid := by
  rcases hfr : findRequest db rid with _ | req
  · exfalso
    simp [voteOnPayout, hfr, svcErr] at h1
  by_cases hp : req.status ≠ RequestStatus.pending
  · exfalso
    simp only [voteOnPayout, hfr] at h1
    rw [if_pos hp] at h1
    simp [svcErr] at h1
  rcases hm : findMembership db req.chama_id uid with _ | m
  · exfalso
    simp only [voteOnPayout, hfr] at h1
    rw [if_neg hp] at h1
    simp [hm, svcErr] at h1
  by_cases hv : (db.payout_votes.any fun w =>
      w.payout_request_id == rid && w.member_id == m.id) = true
  · exfalso
    simp only [voteOnPayout, hfr] at h1
    rw [if_neg hp] at h1
    simp only [hm] at h1
    rw [if_pos hv] at h1
    simp [svcErr] at h1
  have hres : (voteOnPayout true db uid rid v).2 =
      checkVoteStatus true (insertVote db rid m.id v) rid := by
    simp only [voteOnPayout, hfr]
    rw [if_neg hp]
    simp only [hm]
    rw [if_neg hv]
    rfl
  have hfrI : findRequest (insertVote db rid m.id v) rid = some req := hfr
  rw [hres]
  by_cases hA : 2 * approveCount (votesFor (insertVote db rid m.id v) rid) >
      (votesFor (insertVote db rid m.id v) rid).length ∧
      2 * (votesFor (insertVote db rid m.id v) rid).length ≥
        max (membersOf (insertVote db rid m.id v) req.chama_id).length 1
  · have hcv : checkVoteStatus true (insertVote db rid m.id v) rid =
        setRequestStatus (insertVote db rid m.id v) rid
          RequestStatus.approved := by
      simp only [checkVoteStatus, hfrI, eq_self_iff_true, if_true]
      rw [if_pos hA]
    rw [hcv, statusOf_setRequestStatus]
    simp only [codeResolveStatus, findRequest_setRequestStatus, hfrI,
      Option.map_some, Option.map_some']
    have hA' : 2 * approveCount (votesFor (setRequestStatus
        (insertVote db rid m.id v) rid RequestStatus.approved) rid) >
        (votesFor (setRequestStatus (insertVote db rid m.id v) rid
          RequestStatus.approved) rid).length ∧
        2 * (votesFor (setRequestStatus (insertVote db rid m.id v) rid
          RequestStatus.approved) rid).length ≥
          max (membersOf (setRequestStatus (insertVote db rid m.id v) rid
            RequestStatus.approved) req.chama_id).length 1 := hA
    rw [if_pos hA']
    simp [statusOf, hfrI]
  · by_cases hR : (votesFor (insertVote db rid m.id v) rid).length ≥
        max (membersOf (insertVote db rid m.id v) req.chama_id).length 1
    · have hcv : checkVoteStatus true (insertVote db rid m.id v) rid =
          setRequestStatus (insertVote db rid m.id v) rid
            RequestStatus.rejected := by
        simp only [checkVoteStatus, hfrI, eq_self_iff_true, if_true]
        rw [if_neg hA, if_pos hR]
      rw [hcv, statusOf_setRequestStatus]
      simp only [codeResolveStatus, findRequest_setRequestStatus, hfrI,
        Option.map_some, Option.map_some']
      have hA' : ¬(2 * approveCount (votesFor (setRequestStatus
          (insertVote db rid m.id v) rid RequestStatus.rejected) rid) >
          (votesFor (setRequestStatus (insertVote db rid m.id v) rid
            RequestStatus.rejected) rid).length ∧
          2 * (votesFor (setRequestStatus (insertVote db rid m.id v) rid
            RequestStatus.rejected) rid).length ≥
            max (membersOf (setRequestStatus (insertVote db rid m.id v) rid
              RequestStatus.rejected) req.chama_id).length 1) := hA
      have hR' : (votesFor (setRequestStatus (insertVote db rid m.id v) rid
          RequestStatus.rejected) rid).length ≥
          max (membersOf (setRequestStatus (insertVote db rid m.id v) rid
            RequestStatus.rejected) req.chama_id).length 1 := hR
      rw [if_neg hA', if_pos hR']
      simp [statusOf, hfrI]
    · have hcv : checkVoteStatus true (insertVote db rid m.id v) rid =
          insertVote db rid m.id v := by
        simp only [checkVoteStatus, hfrI, eq_self_iff_true, if_true]
        rw [if_neg hA, if_neg hR]
      rw [hcv]
      simp only [codeResolveStatus, hfrI]
      rw [if_neg hA, if_neg hR]
      simp [statusOf, hfrI]

/-- Store for claim C9: a single-member circle with pending request `8`. -/
def c9DB : DB :=
  { nextId := 9
    chamas := [{ id := 0, name := "Circle", contribution_amount := 1000,
                 total_kitty := 4000, is_active := true }]
    chama_members :=
      [{ id := 1, chama_id := 0, user_id := 61, role := Role.chairperson,
         is_active := true }]
    contributions := []
    payout_requests := [{ id := 8, chama_id := 0, member_id := 1, amount := 300,
                          request_type := ReqType.payout, interest_rate := none,
                          repayment_period := none,
                          status := RequestStatus.pending }]
    payout_votes := [] }

/-- The store after the vote whose resolution status update failed
(`updateOk = false`: the swallowed store error of `checkVoteStatus`). -/
def c9After : DB := (voteOnPayout false c9DB 61 8 VoteChoice.approve).2

/-- Claim C9 counterexample: with the status update failing,
`voteOnPayout` still reports success and the vote row is persisted, while
the stored status stays `pending` even though the resolution rule applied to
the recorded votes demands `approved` — resolution is neither in the same
transaction nor checked. -/
theorem c9_counterexample :
    (voteOnPayout false c9DB 61 8 VoteChoice.approve).1 = svcOk ∧
    (votesFor c9After 8).length = 1 ∧
    statusOf c9After 8 = some RequestStatus.pending ∧
    codeResolveStatus c9After 8 = some RequestStatus.approved := by
  decide

theorem c9_status_matches_rule_when_store_ok_witness :
    statusOf (voteOnPayout true c9DB 61 8 VoteChoice.approve).2 8 =
      codeResolveStatus (voteOnPayout true c9DB 61 8 VoteChoice.approve).2 8 :=
  c9_status_matches_rule_when_store_ok c9DB 61 8 VoteChoice.approve (by decide)

/-! ## Claim C10 — atomicity of `createChama` -/

/-- The chama row `createChama` inserts (proof helper). -/
def newChamaRow (db : DB) (d : ChamaCreateData) : ChamaRow :=
  { id := db.nextId, name := sanitizeText d.name,
    contribution_amount := d.contribution_amount, total_kitty := 0,
    is_active := true }

/-- The chairperson member row `createChama` inserts (proof helper). -/
def newMemberRow (db : DB) (uid : Nat) : MemberRow :=
  { id := db.nextId + 1, chama_id := db.nextId, user_id := uid,
    role := Role.chairperson, is_active := true }

/-- Claim C10 (amended): when the chairperson member insert fails after the
chama row was created AND the compensating delete write succeeds
(`deleteOk = true`), `createChama` removes the fresh chama row (the
compensating `delete ... match({ id })`) and reports the
administration-setup error, so the store holds exactly the chamas it held
before; and in every such case, each chama row present after the call
either predates it or comes with a chairperson membership row of the
creator.  The proviso is necessary: the source discards the delete's
result (`lib/chama.ts` line 238), and on a failed delete the orphan chama
row survives with no membership row (`c10_counterexample`).  (`EngineInv`
supplies the freshness of the new id, which in the source is a
`uuid_generate_v4()` value.) -/
theorem c10_createChama_atomic (db : DB) (uid : Nat) (d : ChamaCreateData)
    (hinv : EngineInv db) (hvalid : (validateChamaData d).valid = true) :
    (createChama false true db uid d).1 =
      svcErr "Failed to setup chama administration" ∧
    (createChama false true db uid d).2.chamas = db.chamas ∧
    (∀ (ok : Bool), ∀ c ∈ (createChama ok true db uid d).2.chamas,
      c ∈ db.chamas ∨
        ∃ m ∈ (createChama ok true db uid d).2.chama_members,
          m.chama_id = c.id ∧ m.user_id = uid ∧ m.role = Role.chairperson) := by
  obtain ⟨h1, h2, h3, h4⟩ := hinv
  have hfilter : ((db.chamas ++ [newChamaRow db d]).filter
      (fun c => !(c.id == db.nextId))) = db.chamas := by
    rw [List.filter_append]
    have hone : ([newChamaRow db d].filter
        (fun c => !(c.id == db.nextId))) = [] := by
      simp [newChamaRow]
    rw [hone, List.append_nil]
    apply List.filter_eq_self.2
    intro c hc
    simp [Nat.ne_of_lt (h1 c hc)]
  refine ⟨?_, ?_, ?_⟩
  · simp only [createChama]
    rw [if_neg (by simp [hvalid])]
    rfl
  · simp only [createChama]
    rw [if_neg (by simp [hvalid])]
    exact hfilter
  · intro ok c hc
    revert hc
    simp only [createChama]
    rw [if_neg (by simp [hvalid])]
    cases ok with
    | true =>
        intro hc
        rcases List.mem_append.1 hc with hc | hc
        · exact Or.inl hc
        · rcases List.mem_singleton.1 hc with rfl
          right
          refine ⟨newMemberRow db uid, ?_, rfl, rfl, rfl⟩
          exact List.mem_append.2 (Or.inr (List.mem_singleton.2 rfl))
    | false =>
        intro hc
        have hc' : c ∈ db.chamas := by
          rw [← hfilter]
          exact hc
        exact Or.inl hc'

/-- Chama-creation payload for the claim C10 witness and counterexample. -/
def c10Data : ChamaCreateData :=
  { name := "Atomic Group", description := none, savings_goal := "Savings",
    contribution_cycle := ContribCycle.weekly, contribution_amount := 200 }

/-- Claim C10 counterexample: the source never reads the result of the
compensating delete (`lib/chama.ts` line 238), so when the member insert
fails and the swallowed delete fails too (`memberInsertOk = false`,
`deleteOk = false`) the call reports the setup failure yet the fresh chama
row survives with NO membership row at all — a chama without a chairperson
membership row for its creator. -/
theorem c10_counterexample :
    (createChama false false initDB 7 c10Data).1.success = false ∧
    newChamaRow initDB c10Data ∈
      (createChama false false initDB 7 c10Data).2.chamas ∧
    (createChama false false initDB 7 c10Data).2.chama_members = [] := by
  decide

theorem c10_createChama_atomic_witness :
    (createChama false true initDB 7 c10Data).1 =
      svcErr "Failed to setup chama administration" ∧
    (createChama false true initDB 7 c10Data).2.chamas = initDB.chamas ∧
    (∀ (ok : Bool), ∀ c ∈ (createChama ok true initDB 7 c10Data).2.chamas,
      c ∈ initDB.chamas ∨
        ∃ m ∈ (createChama ok true initDB 7 c10Data).2.chama_members,
          m.chama_id = c.id ∧ m.user_id = 7 ∧ m.role = Role.chairperson) :=
  c10_createChama_atomic initDB 7 c10Data engineInv_initDB (by decide)
